import Mathlib

/-!
Verification of the greenhouse-sensor-network gateway firmware core:
the offline ring buffer (`StateManager`), the backend delivery client
(`BackendClient`) and the connectivity state machine
(`GatewayNetworkManager`), shallowly embedded from
`firmware/main/state_manager.cpp`, `firmware/main/backend_client.cpp`
and `firmware/main/network_manager.cpp`.

Machine integers: `unsigned long` (32-bit on the target) timestamps are
modelled as `Nat` with explicit wraparound (`ulSub` below) exactly where
the C++ performs unsigned subtraction.  `float` sensor fields are only
copied, never computed with, so they are carried as `Int` stand-ins.
-/

/-- Modulus of the target's 32-bit `unsigned long`. -/
def UL_MOD : Nat := 4294967296

/-- Unsigned 32-bit subtraction `a - b`, as the C++ computes it on
`unsigned long` operands. -/
def ulSub (a b : Nat) : Nat := (a % UL_MOD + (UL_MOD - b % UL_MOD)) % UL_MOD

namespace SensorSimulator

/-- `SensorSimulator::SensorData` (sensor_simulator.h).  The four physical
measurements and the two telemetry fields are opaque payload for the state
manager; the C++ `float` fields are carried as `Int` stand-ins since no
arithmetic is ever performed on them by the verified components. -/
structure SensorData where
  temperature : Int
  humidity : Int
  soilMoisture : Int
  batteryLevel : Int
  rssi : Int
  timestamp : Nat
deriving DecidableEq, Repr

end SensorSimulator

open SensorSimulator

/-- `StateManager::BufferedData` (state_manager.h). -/
structure BufferedData where
  data : SensorData
  nodeId : String
  synced : Bool
deriving DecidableEq, Repr

/-- Stand-in for a default-constructed `SensorData` (the C++ constructor
leaves these fields indeterminate; they are never observed through the API
before the slot is first written). -/
def initSensorData : SensorData :=
  { temperature := 0, humidity := 0, soilMoisture := 0,
    batteryLevel := 0, rssi := 0, timestamp := 0 }

/-- The slot value every buffer cell is given by the `StateManager`
constructor: only `synced` is initialised (to `true`); a
default-constructed `String` is empty. -/
def initSlot : BufferedData :=
  { data := initSensorData, nodeId := "", synced := true }

/-- Default pair used with `List.getD` on insertion sequences. -/
def dfltPair : SensorData × String := (initSensorData, "")

/-- Entry as stored by `addSensorData` before acknowledgement. -/
def unsyncedEntry (e : SensorData × String) : BufferedData :=
  { data := e.1, nodeId := e.2, synced := false }

/-- Entry after `markDataAsSynced` acknowledged it. -/
def syncedEntry (e : SensorData × String) : BufferedData :=
  { data := e.1, nodeId := e.2, synced := true }

/-- `StateManager` fields (state_manager.h).  The C++ fixed array
`buffer[BUFFER_SIZE]` is a list of length 100 (invariant `WF` below) and
`uniqueNodes[20]`/`uniqueNodeArraySize` is the occupied prefix of the
registry array as a list. -/
structure StateManager where
  buffer : List BufferedData
  writeIndex : Nat
  bufferCount : Nat
  syncIndex : Nat
  uniqueNodeCount : Nat
  uniqueNodes : List String
deriving DecidableEq, Repr

namespace StateManager

def BUFFER_SIZE : Nat := 100

/-- The `StateManager::StateManager()` constructor. -/
def initState : StateManager :=
  { buffer := List.replicate BUFFER_SIZE initSlot
    writeIndex := 0
    bufferCount := 0
    syncIndex := 0
    uniqueNodeCount := 0
    uniqueNodes := [] }

/-- The gateway-identifier test used throughout `state_manager.cpp`:
`nodeIdStr.equals("gateway-01") || nodeIdStr.startsWith("gateway-")`. -/
def isGatewayId (nodeId : String) : Bool :=
  nodeId == "gateway-01" || String.startsWith nodeId "gateway-"

/-- `StateManager::getNextIndex`. -/
def getNextIndex (index : Nat) : Nat := (index + 1) % BUFFER_SIZE

/-- `StateManager::isNodeUnique`: scans the occupied prefix of
`uniqueNodes` and reports `false` on any match. -/
def isNodeUnique (s : StateManager) (nodeId : String) : Bool :=
  !(s.uniqueNodes.any (fun u => u == nodeId))

/-- `StateManager::addUniqueNode`. -/
def addUniqueNode (s : StateManager) (nodeId : String) : StateManager :=
  if isGatewayId nodeId then s
  else if s.uniqueNodes.length < 20 then
    let nodes := s.uniqueNodes ++ [nodeId]
    { s with uniqueNodes := nodes,
             uniqueNodeCount := (nodes.filter (fun u => !isGatewayId u)).length }
  else s

/-- `StateManager::addSensorData`: write at the cursor, register the
node (non-gateway, if unseen), advance the cursor, saturate the count. -/
def addSensorData (s : StateManager) (data : SensorData) (nodeId : String) :
    StateManager :=
  let s1 := { s with buffer :=
    (s.buffer.set s.writeIndex { data := data, nodeId := nodeId, synced := false }) }
  let s2 :=
    if !(nodeId == "gateway-01") && !(String.startsWith nodeId "gateway-") then
      if isNodeUnique s1 nodeId then addUniqueNode s1 nodeId else s1
    else s1
  let s3 := { s2 with writeIndex := getNextIndex s2.writeIndex }
  if s3.bufferCount < BUFFER_SIZE then { s3 with bufferCount := s3.bufferCount + 1 }
  else s3

/-- The oldest-valid-slot computation of `state_manager.cpp`:
`(writeIndex - bufferCount + BUFFER_SIZE) % BUFFER_SIZE` on `int`s. -/
def oldestIdx (s : StateManager) : Nat :=
  ((((s.writeIndex : Int) - (s.bufferCount : Int) + (BUFFER_SIZE : Int)) %
      (BUFFER_SIZE : Int))).toNat

/-- The scan loop of `StateManager::getNextBufferedData`, iterating `i`
from `0` to `bufferCount - 1` and returning at the first unsynced slot. -/
def scanLoop (buf : List BufferedData) (oldestIndex cnt i : Nat) :
    Option (SensorData × String × Nat) :=
  if i < cnt then
    let index := (oldestIndex + i) % BUFFER_SIZE
    let e := buf.getD index initSlot
    if e.synced then scanLoop buf oldestIndex cnt (i + 1)
    else some (e.data, e.nodeId, index)
  else none
termination_by cnt - i

/-- `StateManager::getNextBufferedData` (the returned triple models the
three out-parameters; `none` models the `false` return). -/
def getNextBufferedData (s : StateManager) : Option (SensorData × String × Nat) :=
  if s.bufferCount = 0 then none
  else scanLoop s.buffer (oldestIdx s) s.bufferCount 0

/-- `StateManager::getNextBufferedData` as the C++ member call: the member
function writes no field of the object, so the post-state is the pre-state. -/
def getNextBufferedDataCall (s : StateManager) :
    Option (SensorData × String × Nat) × StateManager :=
  (getNextBufferedData s, s)

/-- `StateManager::markDataAsSynced` (index is a C++ `int`). -/
def markDataAsSynced (s : StateManager) (bufferIndex : Int) : StateManager :=
  if 0 ≤ bufferIndex ∧ bufferIndex < (BUFFER_SIZE : Int) then
    let i := bufferIndex.toNat
    { s with buffer :=
        (s.buffer.set i { s.buffer.getD i initSlot with synced := true }) }
  else s

/-- The accumulator step of the `StateManager::getActiveNodeCount` scan:
skip gateway entries, keep entries with `timestamp >= cutoffTime`,
deduplicate into the bounded (20) scratch list. -/
def activeStep (cutoffTime : Nat) (activeNodes : List String)
    (e : BufferedData) : List String :=
  if isGatewayId e.nodeId then activeNodes
  else if cutoffTime ≤ e.data.timestamp then
    if e.nodeId ∈ activeNodes then activeNodes
    else if activeNodes.length < 20 then activeNodes ++ [e.nodeId]
    else activeNodes
  else activeNodes

/-- The scratch list built by `StateManager::getActiveNodeCount`;
`cutoffTime = currentTime - timeWindowMs` is the C++ unsigned subtraction. -/
def getActiveNodes (s : StateManager) (currentTime timeWindowMs : Nat) :
    List String :=
  if s.bufferCount = 0 then []
  else
    let cutoffTime := ulSub currentTime timeWindowMs
    let oldestIndex := oldestIdx s
    (List.range s.bufferCount).foldl
      (fun activeNodes i =>
        activeStep cutoffTime activeNodes
          (s.buffer.getD ((oldestIndex + i) % BUFFER_SIZE) initSlot))
      []

/-- `StateManager::getActiveNodeCount`. -/
def getActiveNodeCount (s : StateManager) (currentTime timeWindowMs : Nat) :
    Nat :=
  if s.bufferCount = 0 then 0
  else (getActiveNodes s currentTime timeWindowMs).length

/-- Structural well-formedness mirrored from the C++ declarations:
`buffer` is the 100-element array, the cursor is in range, the count is
saturated at the capacity. -/
def WF (s : StateManager) : Prop :=
  s.buffer.length = BUFFER_SIZE ∧ s.writeIndex < BUFFER_SIZE ∧
    s.bufferCount ≤ BUFFER_SIZE

/-- The logical slot `i` (oldest-to-newest order) of the valid region. -/
def validSlot (s : StateManager) (i : Nat) : BufferedData :=
  s.buffer.getD ((oldestIdx s + i) % BUFFER_SIZE) initSlot

/-- Insert a whole list of (reading, producer) pairs in order. -/
def addAll (s : StateManager) (l : List (SensorData × String)) : StateManager :=
  l.foldl (fun t e => addSensorData t e.1 e.2) s

/-- The Sync Driver loop (spec section 2): repeatedly pull the oldest
unsynced entry and acknowledge it immediately, collecting the
acknowledged (reading, producer) pairs in order. -/
def drain : Nat → StateManager → List (SensorData × String)
  | 0, _ => []
  | fuel + 1, s =>
    match getNextBufferedData s with
    | none => []
    | some (d, n, idx) => (d, n) :: drain fuel (markDataAsSynced s (idx : Int))

/-- The valid region of the buffer in oldest-to-newest order. -/
def validEntries (s : StateManager) : List BufferedData :=
  (List.range s.bufferCount).map (validSlot s)

/-- The distinct non-gateway identifiers among valid entries. -/
def activeCandidateIds (s : StateManager) : List String :=
  (((validEntries s).map (fun e => e.nodeId)).filter
    (fun x => !isGatewayId x)).dedup

end StateManager

namespace BackendClient

def MAX_RETRIES : Nat := 3
def RETRY_DELAY : Nat := 200
def CONNECTIVITY_CHECK_INTERVAL : Nat := 5000

/-- The mutable fields of `BackendClient` that the verified operations
touch (backend_client.h). -/
structure State where
  backendReachable : Bool
  lastConnectivityCheck : Nat
deriving DecidableEq, Repr

/-- Observable events of one `sendSensorData` call: an HTTP attempt (with
its zero-based number and outcome) or a `delay(ms)` between attempts. -/
inductive SendEvent where
  | attemptEv (n : Nat) (success : Bool)
  | waitEv (ms : Nat)
deriving DecidableEq, Repr

/-- The success criterion of `BackendClient::performRequest`:
`httpResponseCode > 0 && httpResponseCode < 400`. -/
def performRequestSuccess (httpResponseCode : Int) : Bool :=
  decide (0 < httpResponseCode) && decide (httpResponseCode < 400)

/-- The retry loop of `BackendClient::sendSensorData`, starting at
`attempt`; the environment's `outcome n` is whether `performRequest`
succeeds on the `n`-th attempt.  Returns the overall result and the
ordered trace of attempts and delays. -/
def sendLoop (outcome : Nat → Bool) (attempt : Nat) : Bool × List SendEvent :=
  if attempt < MAX_RETRIES then
    if outcome attempt then (true, [SendEvent.attemptEv attempt true])
    else
      let waitEvs : List SendEvent :=
        if attempt < MAX_RETRIES - 1 then [SendEvent.waitEv RETRY_DELAY] else []
      let rest := sendLoop outcome (attempt + 1)
      (rest.1, SendEvent.attemptEv attempt false :: (waitEvs ++ rest.2))
  else (false, [])
termination_by MAX_RETRIES - attempt

/-- `BackendClient::sendSensorData`: runs the retry loop from attempt 0
and records the outcome in `backendReachable`. -/
def sendSensorData (s : State) (outcome : Nat → Bool) :
    State × Bool × List SendEvent :=
  let r := sendLoop outcome 0
  ({ s with backendReachable := r.1 }, r.1, r.2)

/-- Trace of a call that fails on attempts `0..k-1` and succeeds on
attempt `k`: `k` failed attempts each followed by a 200 ms delay, then
the successful attempt. -/
def successTrace (k : Nat) : List SendEvent :=
  (((List.range k).map
      (fun j => [SendEvent.attemptEv j false, SendEvent.waitEv RETRY_DELAY])).join)
    ++ [SendEvent.attemptEv k true]

/-- Trace of a call whose every attempt fails: 3 failed attempts with a
200 ms delay between consecutive ones. -/
def failureTrace : List SendEvent :=
  [SendEvent.attemptEv 0 false, SendEvent.waitEv RETRY_DELAY,
   SendEvent.attemptEv 1 false, SendEvent.waitEv RETRY_DELAY,
   SendEvent.attemptEv 2 false]

/-- `BackendClient::checkBackendConnectivity`, with the probe's HTTP
response code supplied by the environment (`testClient.GET()`); runs only
when the rate-limit interval has elapsed (unsigned comparison). -/
def checkBackendConnectivity (s : State) (currentTime : Nat)
    (responseCode : Int) : State :=
  if ulSub currentTime s.lastConnectivityCheck < CONNECTIVITY_CHECK_INTERVAL then s
  else
    let s1 := { s with lastConnectivityCheck := currentTime }
    let s2 := { s1 with backendReachable := responseCode == 200 }
    if 0 < responseCode then s2
    else { s2 with backendReachable := false }

end BackendClient

namespace NetworkManager

/-- `GatewayNetworkManager::NetworkState` (network_manager.h). -/
inductive NetworkState where
  | INIT
  | STA_CONNECTING
  | ONLINE
  | AP_MODE
deriving DecidableEq, Repr

open NetworkState

def STA_CONNECT_TIMEOUT : Nat := 10000
def INTERNET_CHECK_INTERVAL : Nat := 10000
def STA_RETRY_INTERVAL : Nat := 30000

/-- The fields of `GatewayNetworkManager` (network_manager.h). -/
structure GatewayNetworkManager where
  currentState : NetworkState
  lastKnownMode : NetworkState
  internetAvailable : Bool
  staConnectStartTime : Nat
  lastInternetCheck : Nat
  lastSTARetryAttempt : Nat
  lastStateTransitionTime : Nat
  staConnectionInProgress : Bool
  staSSID : String
  staPassword : String
  lastSSID : String
deriving DecidableEq, Repr

/-- Environment inputs consumed by one `update()` (or `begin()`) tick:
the current `millis()`, the link-layer status (`WiFi.status() ==
WL_CONNECTED`), whether `WiFi.getMode()` is pure STA, the associated
SSID reported by the radio, and the result of `testInternetConnection()`
should it be called. -/
structure UpdateInput where
  currentTime : Nat
  wifiConnected : Bool
  wifiModeIsSTA : Bool
  wifiSSID : String
  internetUp : Bool
deriving DecidableEq, Repr

/-- `GatewayNetworkManager::GatewayNetworkManager()`. -/
def initNet : GatewayNetworkManager :=
  { currentState := INIT
    lastKnownMode := INIT
    internetAvailable := false
    staConnectStartTime := 0
    lastInternetCheck := 0
    lastSTARetryAttempt := 0
    lastStateTransitionTime := 0
    staConnectionInProgress := false
    staSSID := ""
    staPassword := ""
    lastSSID := "" }

/-- `GatewayNetworkManager::transitionToState`. -/
def transitionToState (s : GatewayNetworkManager) (newState : NetworkState)
    (currentTime : Nat) : GatewayNetworkManager :=
  if newState ≠ s.currentState then
    { s with lastKnownMode := s.currentState,
             currentState := newState,
             lastStateTransitionTime := currentTime }
  else s

/-- `GatewayNetworkManager::clearSSID`. -/
def clearSSID (s : GatewayNetworkManager) : GatewayNetworkManager :=
  if 0 < s.lastSSID.length then { s with lastSSID := "" } else s

/-- `GatewayNetworkManager::checkInternetConnectivity`, with the probe
outcome supplied by the environment. -/
def checkInternetConnectivity (s : GatewayNetworkManager)
    (currentTime : Nat) (probe : Bool) : GatewayNetworkManager :=
  { s with lastInternetCheck := currentTime, internetAvailable := probe }

/-- `GatewayNetworkManager::startAPMode`: clear the SSID, bring up the
access point (radio side effect), transition to `AP_MODE`, reset the
internet flag, and mark no STA attempt in flight. -/
def startAPMode (s : GatewayNetworkManager) (currentTime : Nat) :
    GatewayNetworkManager :=
  let s1 := clearSSID s
  let s2 := transitionToState s1 AP_MODE currentTime
  { s2 with internetAvailable := false, staConnectionInProgress := false }

/-- `GatewayNetworkManager::attemptSTAConnection`: with no credentials it
falls straight back to AP mode; otherwise it starts a non-blocking
`WiFi.begin` and records the SSID. -/
def attemptSTAConnection (s : GatewayNetworkManager) (currentTime : Nat) :
    GatewayNetworkManager :=
  if s.staSSID.length = 0 then startAPMode s currentTime
  else
    let s1 := clearSSID s
    { s1 with lastSSID := s1.staSSID }

/-- `GatewayNetworkManager::begin`. -/
def begin (s : GatewayNetworkManager) (currentTime : Nat) :
    GatewayNetworkManager :=
  let s1 := transitionToState s INIT currentTime
  let s2 := transitionToState s1 STA_CONNECTING currentTime
  let s3 := { s2 with staConnectStartTime := currentTime,
                      staConnectionInProgress := true }
  attemptSTAConnection s3 currentTime

/-- `GatewayNetworkManager::update`: one tick of the non-blocking
connectivity state machine. -/
def update (s : GatewayNetworkManager) (inp : UpdateInput) :
    GatewayNetworkManager :=
  match s.currentState with
  | INIT => s
  | STA_CONNECTING =>
    if inp.wifiConnected then
      let s1 := if inp.wifiModeIsSTA then s else clearSSID s
      let s2 := if inp.wifiSSID ≠ s1.lastSSID then { s1 with lastSSID := inp.wifiSSID }
                else s1
      let s3 := transitionToState s2 ONLINE inp.currentTime
      let s4 := { s3 with staConnectionInProgress := false }
      checkInternetConnectivity s4 inp.currentTime inp.internetUp
    else if STA_CONNECT_TIMEOUT < ulSub inp.currentTime s.staConnectStartTime then
      let s1 := startAPMode s inp.currentTime
      { s1 with staConnectionInProgress := false }
    else s
  | ONLINE =>
    if !inp.wifiConnected then
      let s1 := transitionToState s AP_MODE inp.currentTime
      startAPMode s1 inp.currentTime
    else if INTERNET_CHECK_INTERVAL < ulSub inp.currentTime s.lastInternetCheck then
      checkInternetConnectivity s inp.currentTime inp.internetUp
    else s
  | AP_MODE =>
    let s1 :=
      if 0 < s.staSSID.length ∧ ¬s.staConnectionInProgress ∧
          STA_RETRY_INTERVAL < ulSub inp.currentTime s.lastSTARetryAttempt then
        { s with lastSTARetryAttempt := inp.currentTime,
                 staConnectStartTime := inp.currentTime,
                 staConnectionInProgress := true }
      else s
    if s1.staConnectionInProgress then
      if inp.wifiConnected then
        let s2 := clearSSID s1
        let s3 := transitionToState s2 ONLINE inp.currentTime
        let s4 := { s3 with staConnectionInProgress := false }
        checkInternetConnectivity s4 inp.currentTime inp.internetUp
      else if STA_CONNECT_TIMEOUT < ulSub inp.currentTime s1.staConnectStartTime then
        { s1 with staConnectionInProgress := false }
      else s1
    else s1

end NetworkManager

/-- Sequence of 101 insertions from a single node, C1's concrete instance. -/
def C1WitnessList : List (SensorData × String) :=
  (List.range 101).map fun t => ({ initSensorData with timestamp := t }, "node-A")

/-- The fresh manager placed in `StaConnecting` (attempt started at 0). -/
def C6WitnessState : NetworkManager.GatewayNetworkManager :=
  { NetworkManager.initNet with
      currentState := NetworkManager.NetworkState.STA_CONNECTING }

/-- One disconnected tick at 10,001 ms. -/
def C6WitnessInputs : List NetworkManager.UpdateInput :=
  [{ currentTime := 10001, wifiConnected := false, wifiModeIsSTA := true,
     wifiSSID := "", internetUp := false }]

theorem ulSub_eq_sub (a b : Nat) (hba : b ≤ a) (hlt : a - b < UL_MOD)
    (ha : a < UL_MOD) : ulSub a b = a - b := by
  unfold ulSub UL_MOD at *
  omega

namespace NetworkManager

open NetworkState

@[simp] theorem transitionToState_currentState (s : GatewayNetworkManager)
    (ns : NetworkState) (t : Nat) :
    (transitionToState s ns t).currentState = ns := by
  unfold transitionToState
  split <;> simp_all

@[simp] theorem transitionToState_staSSID (s : GatewayNetworkManager)
    (ns : NetworkState) (t : Nat) :
    (transitionToState s ns t).staSSID = s.staSSID := by
  unfold transitionToState
  split <;> rfl

@[simp] theorem transitionToState_internetAvailable (s : GatewayNetworkManager)
    (ns : NetworkState) (t : Nat) :
    (transitionToState s ns t).internetAvailable = s.internetAvailable := by
  unfold transitionToState
  split <;> rfl

@[simp] theorem transitionToState_staConnectionInProgress (s : GatewayNetworkManager)
    (ns : NetworkState) (t : Nat) :
    (transitionToState s ns t).staConnectionInProgress = s.staConnectionInProgress := by
  unfold transitionToState
  split <;> rfl

@[simp] theorem transitionToState_staConnectStartTime (s : GatewayNetworkManager)
    (ns : NetworkState) (t : Nat) :
    (transitionToState s ns t).staConnectStartTime = s.staConnectStartTime := by
  unfold transitionToState
  split <;> rfl

@[simp] theorem clearSSID_currentState (s : GatewayNetworkManager) :
    (clearSSID s).currentState = s.currentState := by
  unfold clearSSID
  split <;> rfl

@[simp] theorem clearSSID_staSSID (s : GatewayNetworkManager) :
    (clearSSID s).staSSID = s.staSSID := by
  unfold clearSSID
  split <;> rfl

@[simp] theorem clearSSID_internetAvailable (s : GatewayNetworkManager) :
    (clearSSID s).internetAvailable = s.internetAvailable := by
  unfold clearSSID
  split <;> rfl

@[simp] theorem clearSSID_staConnectionInProgress (s : GatewayNetworkManager) :
    (clearSSID s).staConnectionInProgress = s.staConnectionInProgress := by
  unfold clearSSID
  split <;> rfl

@[simp] theorem clearSSID_staConnectStartTime (s : GatewayNetworkManager) :
    (clearSSID s).staConnectStartTime = s.staConnectStartTime := by
  unfold clearSSID
  split <;> rfl

@[simp] theorem startAPMode_currentState (s : GatewayNetworkManager) (t : Nat) :
    (startAPMode s t).currentState = AP_MODE := by
  unfold startAPMode
  simp

@[simp] theorem startAPMode_internetAvailable (s : GatewayNetworkManager) (t : Nat) :
    (startAPMode s t).internetAvailable = false := rfl

@[simp] theorem startAPMode_staConnectionInProgress (s : GatewayNetworkManager)
    (t : Nat) :
    (startAPMode s t).staConnectionInProgress = false := rfl

@[simp] theorem startAPMode_staSSID (s : GatewayNetworkManager) (t : Nat) :
    (startAPMode s t).staSSID = s.staSSID := by
  unfold startAPMode
  simp

end NetworkManager

/-- C8: for a connectivity state machine with no station credentials
configured, `begin` leaves the machine in `ApMode` within the call
itself, with no pending station-connection attempt in flight. -/
theorem C8_begin_no_credentials_immediate_ap
    (s : NetworkManager.GatewayNetworkManager) (t : Nat)
    (h : s.staSSID = "") :
    (NetworkManager.begin s t).currentState =
        NetworkManager.NetworkState.AP_MODE ∧
      (NetworkManager.begin s t).staConnectionInProgress = false := by
  unfold NetworkManager.begin NetworkManager.attemptSTAConnection
  simp [h]

/-- Witness for C8 at the freshly constructed manager (whose credentials
are empty) at time 0. -/
theorem C8_begin_no_credentials_immediate_ap_witness :
    (NetworkManager.begin NetworkManager.initNet 0).currentState =
        NetworkManager.NetworkState.AP_MODE ∧
      (NetworkManager.begin NetworkManager.initNet 0).staConnectionInProgress =
        false :=
  C8_begin_no_credentials_immediate_ap NetworkManager.initNet 0 rfl

/-- C9: `getNextBufferedData` leaves the entire buffer state unchanged,
and two consecutive calls with no intervening operation return the same
result. -/
theorem C9_getNextBufferedData_query_pure (s : StateManager) :
    (StateManager.getNextBufferedDataCall s).2 = s ∧
      (StateManager.getNextBufferedDataCall
          (StateManager.getNextBufferedDataCall s).2).1 =
        (StateManager.getNextBufferedDataCall s).1 :=
  ⟨rfl, rfl⟩

/-- C10: `markDataAsSynced` is a silent no-op on any out-of-range index;
on an in-range index it sets only the synced flag of that slot, leaving
the slot's reading and node identifier, every other slot, the write
cursor, the count and the registry unchanged. -/
theorem C10_markDataAsSynced_safe (s : StateManager) (i : Int)
    (hlen : s.buffer.length = StateManager.BUFFER_SIZE) :
    ((i < 0 ∨ (StateManager.BUFFER_SIZE : Int) ≤ i) →
      StateManager.markDataAsSynced s i = s) ∧
    (0 ≤ i → i < (StateManager.BUFFER_SIZE : Int) →
      ((StateManager.markDataAsSynced s i).writeIndex = s.writeIndex ∧
       (StateManager.markDataAsSynced s i).bufferCount = s.bufferCount ∧
       (StateManager.markDataAsSynced s i).syncIndex = s.syncIndex ∧
       (StateManager.markDataAsSynced s i).uniqueNodes = s.uniqueNodes ∧
       (StateManager.markDataAsSynced s i).uniqueNodeCount = s.uniqueNodeCount ∧
       (StateManager.markDataAsSynced s i).buffer.length =
         StateManager.BUFFER_SIZE ∧
       ((StateManager.markDataAsSynced s i).buffer.getD i.toNat initSlot).synced =
         true ∧
       ((StateManager.markDataAsSynced s i).buffer.getD i.toNat initSlot).data =
         (s.buffer.getD i.toNat initSlot).data ∧
       ((StateManager.markDataAsSynced s i).buffer.getD i.toNat initSlot).nodeId =
         (s.buffer.getD i.toNat initSlot).nodeId ∧
       ∀ j : Nat, j ≠ i.toNat →
         (StateManager.markDataAsSynced s i).buffer.getD j initSlot =
           s.buffer.getD j initSlot)) := by
  constructor
  · intro hout
    have hcond : ¬(0 ≤ i ∧ i < (StateManager.BUFFER_SIZE : Int)) := by
      unfold StateManager.BUFFER_SIZE at hout ⊢
      omega
    unfold StateManager.markDataAsSynced
    rw [if_neg hcond]
  · intro h0 hlt
    have hi : i.toNat < s.buffer.length := by
      rw [hlen]
      unfold StateManager.BUFFER_SIZE at hlt ⊢
      omega
    unfold StateManager.markDataAsSynced
    rw [if_pos ⟨h0, hlt⟩]
    refine ⟨rfl, rfl, rfl, rfl, rfl, by simpa using hlen, ?_, ?_, ?_, ?_⟩
    · simp [List.getD_eq_getElem?_getD, List.getElem?_set, hi]
    · simp [List.getD_eq_getElem?_getD, List.getElem?_set, hi]
    · simp [List.getD_eq_getElem?_getD, List.getElem?_set, hi]
    · intro j hj
      simp [List.getD_eq_getElem?_getD, List.getElem?_set, Ne.symm hj]

/-- Witness for C10 at the freshly constructed manager with the in-range
index 5 (the out-of-range arm is exercised vacuously by the first
conjunct at index 5). -/
theorem C10_markDataAsSynced_safe_witness :
    ((5 : Int) < 0 ∨ (StateManager.BUFFER_SIZE : Int) ≤ 5 →
      StateManager.markDataAsSynced StateManager.initState 5 =
        StateManager.initState) ∧
    ((0 : Int) ≤ 5 → (5 : Int) < (StateManager.BUFFER_SIZE : Int) →
      ((StateManager.markDataAsSynced StateManager.initState 5).writeIndex =
         StateManager.initState.writeIndex ∧
       (StateManager.markDataAsSynced StateManager.initState 5).bufferCount =
         StateManager.initState.bufferCount ∧
       (StateManager.markDataAsSynced StateManager.initState 5).syncIndex =
         StateManager.initState.syncIndex ∧
       (StateManager.markDataAsSynced StateManager.initState 5).uniqueNodes =
         StateManager.initState.uniqueNodes ∧
       (StateManager.markDataAsSynced StateManager.initState 5).uniqueNodeCount =
         StateManager.initState.uniqueNodeCount ∧
       (StateManager.markDataAsSynced StateManager.initState 5).buffer.length =
         StateManager.BUFFER_SIZE ∧
       ((StateManager.markDataAsSynced StateManager.initState 5).buffer.getD
           (5 : Int).toNat initSlot).synced = true ∧
       ((StateManager.markDataAsSynced StateManager.initState 5).buffer.getD
           (5 : Int).toNat initSlot).data =
         (StateManager.initState.buffer.getD (5 : Int).toNat initSlot).data ∧
       ((StateManager.markDataAsSynced StateManager.initState 5).buffer.getD
           (5 : Int).toNat initSlot).nodeId =
         (StateManager.initState.buffer.getD (5 : Int).toNat initSlot).nodeId ∧
       ∀ j : Nat, j ≠ (5 : Int).toNat →
         (StateManager.markDataAsSynced StateManager.initState 5).buffer.getD j
             initSlot =
           StateManager.initState.buffer.getD j initSlot)) :=
  C10_markDataAsSynced_safe StateManager.initState 5 (by decide)

/-- C3: when every delivery attempt fails, `sendSensorData` performs
exactly 3 attempts with a 200 ms wait between consecutive attempts and
returns failure; when the (k+1)-st attempt (k < 3, zero-based `k`) is the
first to succeed, it performs exactly k+1 attempts, short-circuits there,
and returns success. -/
theorem C3_retry_policy (s : BackendClient.State) (outcome : Nat → Bool) :
    ((∀ n, outcome n = false) →
      BackendClient.sendSensorData s outcome =
        ({ s with backendReachable := false }, false,
          BackendClient.failureTrace)) ∧
    (∀ k, k < BackendClient.MAX_RETRIES → (∀ j, j < k → outcome j = false) →
      outcome k = true →
      BackendClient.sendSensorData s outcome =
        ({ s with backendReachable := true }, true,
          BackendClient.successTrace k)) := by
  constructor
  · intro hall
    simp [BackendClient.sendSensorData, BackendClient.sendLoop, hall,
      BackendClient.MAX_RETRIES, BackendClient.failureTrace,
      BackendClient.RETRY_DELAY]
  · intro k hk h1 h2
    unfold BackendClient.MAX_RETRIES at hk
    interval_cases k
    · simp [BackendClient.sendSensorData, BackendClient.sendLoop, h2,
        BackendClient.MAX_RETRIES, BackendClient.successTrace,
        BackendClient.RETRY_DELAY]
    · have h0 := h1 0 (by omega)
      simp [BackendClient.sendSensorData, BackendClient.sendLoop, h0, h2,
        BackendClient.MAX_RETRIES, BackendClient.successTrace,
        BackendClient.RETRY_DELAY]
      rfl
    · have h0 := h1 0 (by omega)
      have hone := h1 1 (by omega)
      simp [BackendClient.sendSensorData, BackendClient.sendLoop, h0, hone, h2,
        BackendClient.MAX_RETRIES, BackendClient.successTrace,
        BackendClient.RETRY_DELAY]
      rfl

/-- Witness for C3: an environment whose every attempt fails yields the
3-attempt failure trace, and one whose second attempt is the first
success yields the 2-attempt success trace. -/
theorem C3_retry_policy_witness :
    BackendClient.sendSensorData ⟨true, 0⟩ (fun _ => false) =
      (⟨false, 0⟩, false, BackendClient.failureTrace) ∧
    BackendClient.sendSensorData ⟨false, 0⟩ (fun n => decide (n = 1)) =
      (⟨true, 0⟩, true, BackendClient.successTrace 1) :=
  ⟨(C3_retry_policy ⟨true, 0⟩ (fun _ => false)).1 (fun _ => rfl),
   (C3_retry_policy ⟨false, 0⟩ (fun n => decide (n = 1))).2 1 (by decide)
     (fun j hj => by simp; omega) (by decide)⟩

/-- C4 counterexample: the health probe receives HTTP 302 — a code in the
successful-or-redirected class used by `performRequest` — yet the cached
backend-reachable flag is set to `false`, refuting the claim that the
probe uses the same below-400 criterion. -/
theorem C4_health_check_counterexample :
    (BackendClient.checkBackendConnectivity ⟨false, 0⟩ 5000 302).backendReachable
        = false ∧
      BackendClient.performRequestSuccess 302 = true := by
  constructor
  · decide
  · decide

/-- C4 (amended): whenever the health probe actually runs (the 5 s rate
limit has elapsed), the cached backend-reachable flag is set to `true`
iff the response code equals 200 exactly — a strictly stronger criterion
than the data-send path's positive-below-400 class, which it implies but
is not implied by. -/
theorem C4_health_check_sets_flag_iff_200 (s : BackendClient.State)
    (t : Nat) (code : Int)
    (h : ¬ ulSub t s.lastConnectivityCheck <
        BackendClient.CONNECTIVITY_CHECK_INTERVAL) :
    (BackendClient.checkBackendConnectivity s t code).backendReachable =
        decide (code = 200) ∧
      (code = 200 → BackendClient.performRequestSuccess code = true) := by
  constructor
  · unfold BackendClient.checkBackendConnectivity
    rw [if_neg h]
    by_cases hc : 0 < code
    · simp only [if_pos hc]
      by_cases he : code = 200 <;> simp [he]
    · simp only [if_neg hc]
      have : ¬(code = 200) := by omega
      simp [this]
  · intro h200
    subst h200
    decide

/-- Witness for C4 (amended) at a concrete state whose rate limit has
elapsed and a concrete response code. -/
theorem C4_health_check_sets_flag_iff_200_witness :
    (BackendClient.checkBackendConnectivity ⟨false, 0⟩ 6000 200).backendReachable
        = decide ((200 : Int) = 200) ∧
      ((200 : Int) = 200 → BackendClient.performRequestSuccess 200 = true) :=
  C4_health_check_sets_flag_iff_200 ⟨false, 0⟩ 6000 200 (by decide)

namespace StateManager

theorem addSensorData_uniqueNodes (s : StateManager) (d : SensorData)
    (n : String) :
    (addSensorData s d n).uniqueNodes =
      if isGatewayId n then s.uniqueNodes
      else if n ∈ s.uniqueNodes then s.uniqueNodes
      else if s.uniqueNodes.length < 20 then s.uniqueNodes ++ [n]
      else s.uniqueNodes := by
  by_cases hg : isGatewayId n
  · have hc : (!(n == "gateway-01") && !(String.startsWith n "gateway-")) = false := by
      unfold isGatewayId at hg
      rcases Bool.or_eq_true_iff.mp hg with h | h <;> simp [h]
    unfold addSensorData
    simp only [hc, Bool.false_eq_true, if_false, if_pos hg]
    split <;> rfl
  · have hc : (!(n == "gateway-01") && !(String.startsWith n "gateway-")) = true := by
      unfold isGatewayId at hg
      simp only [Bool.or_eq_true, not_or] at hg
      simp [hg.1, hg.2]
    by_cases hm : n ∈ s.uniqueNodes
    · have hu : isNodeUnique { s with buffer :=
          (s.buffer.set s.writeIndex { data := d, nodeId := n, synced := false }) }
            n = false := by
        unfold isNodeUnique
        simp
        exact hm
      unfold addSensorData
      simp only [hc, if_true, hu, Bool.false_eq_true, if_false, if_neg hg,
        if_pos hm]
      split <;> rfl
    · have hu : isNodeUnique { s with buffer :=
          (s.buffer.set s.writeIndex { data := d, nodeId := n, synced := false }) }
            n = true := by
        unfold isNodeUnique
        simp
        intro x hx heq
        exact absurd (heq ▸ hx) hm
      unfold addSensorData addUniqueNode
      simp only [hc, if_true, hu, if_neg hg, if_neg hm]
      by_cases hl : s.uniqueNodes.length < 20
      · simp only [if_pos hl]
        split <;> rfl
      · simp only [if_neg hl]
        split <;> rfl

theorem addSensorData_gateway_fields (s : StateManager) (d : SensorData)
    (n : String) (hg : isGatewayId n = true) :
    (addSensorData s d n).uniqueNodes = s.uniqueNodes ∧
      (addSensorData s d n).uniqueNodeCount = s.uniqueNodeCount := by
  have hc : (!(n == "gateway-01") && !(String.startsWith n "gateway-")) = false := by
    unfold isGatewayId at hg
    rcases Bool.or_eq_true_iff.mp hg with h | h <;> simp [h]
  unfold addSensorData
  simp only [hc, Bool.false_eq_true, if_false]
  constructor <;> (split <;> rfl)

theorem foldl_add_registry_of_mem (n : String) (ds : List SensorData) :
    ∀ s : StateManager, n ∈ s.uniqueNodes →
      (ds.foldl (fun t dd => addSensorData t dd n) s).uniqueNodes =
        s.uniqueNodes := by
  induction ds with
  | nil => intro s _; rfl
  | cons d ds ih =>
    intro s hm
    have hstep : (addSensorData s d n).uniqueNodes = s.uniqueNodes := by
      rw [addSensorData_uniqueNodes]
      by_cases hg : isGatewayId n <;> simp [hg, hm]
    have hm' : n ∈ (addSensorData s d n).uniqueNodes := by rw [hstep]; exact hm
    calc (List.foldl (fun t dd => addSensorData t dd n) (addSensorData s d n)
            ds).uniqueNodes
        = (addSensorData s d n).uniqueNodes := ih _ hm'
      _ = s.uniqueNodes := hstep

theorem foldl_add_registry_of_full (n : String) (ds : List SensorData) :
    ∀ s : StateManager, n ∉ s.uniqueNodes → ¬ s.uniqueNodes.length < 20 →
      (ds.foldl (fun t dd => addSensorData t dd n) s).uniqueNodes =
        s.uniqueNodes := by
  induction ds with
  | nil => intro s _ _; rfl
  | cons d ds ih =>
    intro s hm hl
    have hstep : (addSensorData s d n).uniqueNodes = s.uniqueNodes := by
      rw [addSensorData_uniqueNodes]
      by_cases hg : isGatewayId n <;> simp [hg, hm, hl]
    have hm' : n ∉ (addSensorData s d n).uniqueNodes := by rw [hstep]; exact hm
    have hl' : ¬ (addSensorData s d n).uniqueNodes.length < 20 := by
      rw [hstep]; exact hl
    calc (List.foldl (fun t dd => addSensorData t dd n) (addSensorData s d n)
            ds).uniqueNodes
        = (addSensorData s d n).uniqueNodes := ih _ hm' hl'
      _ = s.uniqueNodes := hstep

end StateManager

/-- C7: inserting the same non-gateway identifier any positive number of
times registers it exactly once in the Unique Node Registry (or, when
the registry already holds 20 identifiers and the identifier is new,
drops it silently, leaving the registry untouched); inserting any
identifier of the gateway's namespace never changes the registry or its
count. -/
theorem C7_registry_dedup (s : StateManager) (id gid : String)
    (ds : List SensorData) (d : SensorData)
    (hnd : s.uniqueNodes.Nodup)
    (hg : StateManager.isGatewayId id = false)
    (hne : ds ≠ []) :
    (((ds.foldl (fun t dd => StateManager.addSensorData t dd id) s).uniqueNodes.count
          id =
        if id ∈ s.uniqueNodes ∨ s.uniqueNodes.length < 20 then 1 else 0) ∧
      (id ∉ s.uniqueNodes → ¬ s.uniqueNodes.length < 20 →
        (ds.foldl (fun t dd => StateManager.addSensorData t dd id) s).uniqueNodes =
          s.uniqueNodes)) ∧
    (StateManager.isGatewayId gid = true →
      (StateManager.addSensorData s d gid).uniqueNodes = s.uniqueNodes ∧
        (StateManager.addSensorData s d gid).uniqueNodeCount =
          s.uniqueNodeCount) := by
  refine ⟨?_, fun hgid => StateManager.addSensorData_gateway_fields s d gid hgid⟩
  obtain ⟨d0, ds', rfl⟩ : ∃ d0 ds', ds = d0 :: ds' := by
    cases ds with
    | nil => exact absurd rfl hne
    | cons a l => exact ⟨a, l, rfl⟩
  simp only [List.foldl_cons]
  by_cases hm : id ∈ s.uniqueNodes
  · have hstep : (StateManager.addSensorData s d0 id).uniqueNodes =
        s.uniqueNodes := by
      rw [StateManager.addSensorData_uniqueNodes]
      simp [hg, hm]
    have hfold := StateManager.foldl_add_registry_of_mem id ds'
      (StateManager.addSensorData s d0 id) (by rw [hstep]; exact hm)
    rw [hfold, hstep]
    constructor
    · rw [if_pos (Or.inl hm)]
      exact List.count_eq_one_of_mem hnd hm
    · intro hm' _
      exact absurd hm hm'
  · by_cases hl : s.uniqueNodes.length < 20
    · have hstep : (StateManager.addSensorData s d0 id).uniqueNodes =
          s.uniqueNodes ++ [id] := by
        rw [StateManager.addSensorData_uniqueNodes]
        simp [hg, hm, hl]
      have hfold := StateManager.foldl_add_registry_of_mem id ds'
        (StateManager.addSensorData s d0 id)
        (by rw [hstep]; exact List.mem_append_right _ (List.mem_singleton.mpr rfl))
      rw [hfold, hstep]
      constructor
      · rw [if_pos (Or.inr hl)]
        rw [List.count_append, List.count_eq_zero_of_not_mem hm]
        simp
      · intro _ hl'
        exact absurd hl hl'
    · have hstep : (StateManager.addSensorData s d0 id).uniqueNodes =
          s.uniqueNodes := by
        rw [StateManager.addSensorData_uniqueNodes]
        simp [hg, hm, hl]
      have hfold := StateManager.foldl_add_registry_of_full id ds'
        (StateManager.addSensorData s d0 id) (by rw [hstep]; exact hm)
        (by rw [hstep]; exact hl)
      rw [hfold, hstep]
      constructor
      · rw [if_neg (by push_neg; exact ⟨hm, by omega⟩)]
        exact List.count_eq_zero_of_not_mem hm
      · intro _ _
        rfl

/-- Witness for C7: inserting `"node-A"` twice into the fresh manager and
`"gateway-01"` once. -/
theorem C7_registry_dedup_witness :
    ((([initSensorData, initSensorData].foldl
          (fun t dd => StateManager.addSensorData t dd "node-A")
          StateManager.initState).uniqueNodes.count "node-A" =
        if "node-A" ∈ StateManager.initState.uniqueNodes ∨
            StateManager.initState.uniqueNodes.length < 20 then 1 else 0) ∧
      ("node-A" ∉ StateManager.initState.uniqueNodes →
        ¬ StateManager.initState.uniqueNodes.length < 20 →
        ([initSensorData, initSensorData].foldl
            (fun t dd => StateManager.addSensorData t dd "node-A")
            StateManager.initState).uniqueNodes =
          StateManager.initState.uniqueNodes)) ∧
    (StateManager.isGatewayId "gateway-01" = true →
      (StateManager.addSensorData StateManager.initState initSensorData
          "gateway-01").uniqueNodes = StateManager.initState.uniqueNodes ∧
        (StateManager.addSensorData StateManager.initState initSensorData
            "gateway-01").uniqueNodeCount =
          StateManager.initState.uniqueNodeCount) :=
  C7_registry_dedup StateManager.initState "node-A" "gateway-01"
    [initSensorData, initSensorData] initSensorData (by decide) (by decide)
    (by decide)

namespace StateManager

@[simp] theorem addUniqueNode_buffer (s : StateManager) (n : String) :
    (addUniqueNode s n).buffer = s.buffer := by
  unfold addUniqueNode
  split
  · rfl
  · split <;> rfl

@[simp] theorem addUniqueNode_writeIndex (s : StateManager) (n : String) :
    (addUniqueNode s n).writeIndex = s.writeIndex := by
  unfold addUniqueNode
  split
  · rfl
  · split <;> rfl

@[simp] theorem addUniqueNode_bufferCount (s : StateManager) (n : String) :
    (addUniqueNode s n).bufferCount = s.bufferCount := by
  unfold addUniqueNode
  split
  · rfl
  · split <;> rfl

theorem addSensorData_buffer (s : StateManager) (d : SensorData) (n : String) :
    (addSensorData s d n).buffer =
      s.buffer.set s.writeIndex { data := d, nodeId := n, synced := false } := by
  simp [addSensorData, apply_ite (StateManager.buffer)]

theorem addSensorData_writeIndex (s : StateManager) (d : SensorData)
    (n : String) :
    (addSensorData s d n).writeIndex = getNextIndex s.writeIndex := by
  simp [addSensorData, apply_ite (StateManager.writeIndex)]

theorem addSensorData_bufferCount (s : StateManager) (d : SensorData)
    (n : String) :
    (addSensorData s d n).bufferCount =
      if s.bufferCount < BUFFER_SIZE then s.bufferCount + 1
      else s.bufferCount := by
  simp [addSensorData, apply_ite (StateManager.bufferCount)]

end StateManager

namespace StateManager

@[simp] theorem addAll_nil (s : StateManager) : addAll s [] = s := rfl

theorem addAll_concat (s : StateManager) (l : List (SensorData × String))
    (x : SensorData × String) :
    addAll s (l ++ [x]) = addSensorData (addAll s l) x.1 x.2 := by
  unfold addAll
  rw [List.foldl_append]
  rfl

theorem addAll_buffer_length (l : List (SensorData × String)) :
    ∀ s : StateManager, (addAll s l).buffer.length = s.buffer.length := by
  induction l with
  | nil => intro s; rfl
  | cons x xs ih =>
    intro s
    show (addAll (addSensorData s x.1 x.2) xs).buffer.length = _
    rw [ih, addSensorData_buffer, List.length_set]

@[simp] theorem initState_buffer_length :
    initState.buffer.length = BUFFER_SIZE := by
  simp [initState]

theorem addAll_writeIndex (l : List (SensorData × String)) :
    (addAll initState l).writeIndex = l.length % BUFFER_SIZE := by
  induction l using List.reverseRecOn with
  | nil => rfl
  | append_singleton xs x ih =>
    rw [addAll_concat, addSensorData_writeIndex, ih]
    unfold getNextIndex BUFFER_SIZE at *
    simp only [List.length_append, List.length_singleton]
    omega

theorem addAll_bufferCount (l : List (SensorData × String)) :
    (addAll initState l).bufferCount = min l.length BUFFER_SIZE := by
  induction l using List.reverseRecOn with
  | nil => rfl
  | append_singleton xs x ih =>
    rw [addAll_concat, addSensorData_bufferCount, ih]
    unfold BUFFER_SIZE at *
    simp only [List.length_append, List.length_singleton]
    split <;> omega

theorem addAll_slots (l : List (SensorData × String)) :
    ∀ m, m < l.length → l.length ≤ m + BUFFER_SIZE →
      (addAll initState l).buffer.getD (m % BUFFER_SIZE) initSlot =
        { data := (l.getD m dfltPair).1, nodeId := (l.getD m dfltPair).2,
          synced := false } := by
  induction l using List.reverseRecOn with
  | nil => intro m hm _; simp at hm
  | append_singleton xs x ih =>
    intro m hm hlast
    simp only [List.length_append, List.length_singleton] at hm hlast
    have hlen : (addAll initState xs).buffer.length = BUFFER_SIZE := by
      rw [addAll_buffer_length, initState_buffer_length]
    rw [addAll_concat, addSensorData_buffer, addAll_writeIndex]
    by_cases hmn : m = xs.length
    · rw [hmn]
      have hidx : xs.length % BUFFER_SIZE < (addAll initState xs).buffer.length := by
        rw [hlen]
        exact Nat.mod_lt _ (by unfold BUFFER_SIZE; omega)
      rw [List.getD_eq_getElem?_getD, List.getElem?_set_self hidx]
      rw [List.getD_append_right _ _ dfltPair xs.length (Nat.le_refl _)]
      simp
    · have hmlt : m < xs.length := by omega
      have hne : xs.length % BUFFER_SIZE ≠ m % BUFFER_SIZE := by
        unfold BUFFER_SIZE at *
        omega
      rw [List.getD_eq_getElem?_getD, List.getElem?_set_ne hne,
        ← List.getD_eq_getElem?_getD]
      rw [List.getD_append _ _ dfltPair m hmlt]
      exact ih m hmlt (by unfold BUFFER_SIZE at *; omega)

end StateManager

namespace StateManager

theorem scanLoop_spec (buf : List BufferedData) (o : Nat) :
    ∀ fuel cnt i, cnt - i ≤ fuel →
      ((scanLoop buf o cnt i = none ↔
         ∀ r, i ≤ r → r < cnt →
           (buf.getD ((o + r) % BUFFER_SIZE) initSlot).synced = true) ∧
       (∀ d nId idx, scanLoop buf o cnt i = some (d, nId, idx) →
         ∃ r, i ≤ r ∧ r < cnt ∧ idx = (o + r) % BUFFER_SIZE ∧
           (buf.getD idx initSlot).synced = false ∧
           (buf.getD idx initSlot).data = d ∧
           (buf.getD idx initSlot).nodeId = nId ∧
           ∀ r', i ≤ r' → r' < r →
             (buf.getD ((o + r') % BUFFER_SIZE) initSlot).synced = true)) := by
  intro fuel
  induction fuel with
  | zero =>
    intro cnt i hf
    have hni : ¬ i < cnt := by omega
    rw [scanLoop, if_neg hni]
    constructor
    · constructor
      · intro _ r hir hrc
        omega
      · intro _
        rfl
    · intro d nId idx h
      exact absurd h (by simp)
  | succ fuel ih =>
    intro cnt i hf
    by_cases hic : i < cnt
    · rw [scanLoop, if_pos hic]
      by_cases hs : (buf.getD ((o + i) % BUFFER_SIZE) initSlot).synced
      · simp only [hs, if_true]
        obtain ⟨ih1, ih2⟩ := ih cnt (i + 1) (by omega)
        constructor
        · rw [ih1]
          constructor
          · intro hall r hir hrc
            by_cases hri : r = i
            · rw [hri]; exact hs
            · exact hall r (by omega) hrc
          · intro hall r hir hrc
            exact hall r (by omega) hrc
        · intro d nId idx h
          obtain ⟨r, hr1, hr2, hr3, hr4, hr5, hr6, hr7⟩ := ih2 d nId idx h
          refine ⟨r, by omega, hr2, hr3, hr4, hr5, hr6, ?_⟩
          intro r' hir' hr'r
          by_cases hri : r' = i
          · rw [hri]; exact hs
          · exact hr7 r' (by omega) hr'r
      · have hsf : (buf.getD ((o + i) % BUFFER_SIZE) initSlot).synced = false := by
          simpa using hs
        simp only [hsf, Bool.false_eq_true, if_false]
        constructor
        · constructor
          · intro h
            exact absurd h (by simp)
          · intro hall
            have htrue := hall i (Nat.le_refl _) hic
            rw [htrue] at hsf
            exact absurd hsf (by simp)
        · intro d nId idx h
          simp only [Option.some.injEq, Prod.mk.injEq] at h
          obtain ⟨hd, hn, hx⟩ := h
          refine ⟨i, Nat.le_refl _, hic, hx.symm, ?_, ?_, ?_, ?_⟩
          · rw [← hx]
            exact hsf
          · rw [← hx]
            exact hd
          · rw [← hx]
            exact hn
          · intro r' h1 h2
            omega
    · rw [scanLoop, if_neg hic]
      constructor
      · constructor
        · intro _ r hir hrc
          omega
        · intro _
          rfl
      · intro d nId idx h
        exact absurd h (by simp)

theorem markDataAsSynced_writeIndex (s : StateManager) (i : Int) :
    (markDataAsSynced s i).writeIndex = s.writeIndex := by
  unfold markDataAsSynced
  split <;> rfl

theorem markDataAsSynced_bufferCount (s : StateManager) (i : Int) :
    (markDataAsSynced s i).bufferCount = s.bufferCount := by
  unfold markDataAsSynced
  split <;> rfl

theorem markDataAsSynced_buffer_length (s : StateManager) (i : Int) :
    (markDataAsSynced s i).buffer.length = s.buffer.length := by
  unfold markDataAsSynced
  split <;> simp

theorem getD_set_mark (buf : List BufferedData) (p j : Nat) :
    (((buf.set p { buf.getD p initSlot with synced := true }).getD j
          initSlot).data = (buf.getD j initSlot).data) ∧
      (((buf.set p { buf.getD p initSlot with synced := true }).getD j
          initSlot).nodeId = (buf.getD j initSlot).nodeId) := by
  by_cases hp : p < buf.length
  · by_cases hj : j = p
    · subst hj
      rw [List.getD_eq_getElem?_getD, List.getElem?_set_self hp]
      constructor <;> rfl
    · rw [List.getD_eq_getElem?_getD,
        List.getElem?_set_ne (fun h => hj h.symm), ← List.getD_eq_getElem?_getD]
      constructor <;> rfl
  · rw [List.set_eq_of_length_le (Nat.le_of_not_lt hp)]
    constructor <;> rfl

theorem markDataAsSynced_slot_fields (s : StateManager) (i : Int) (j : Nat) :
    ((markDataAsSynced s i).buffer.getD j initSlot).data =
        (s.buffer.getD j initSlot).data ∧
      ((markDataAsSynced s i).buffer.getD j initSlot).nodeId =
        (s.buffer.getD j initSlot).nodeId := by
  unfold markDataAsSynced
  split
  · exact getD_set_mark s.buffer i.toNat j
  · constructor <;> rfl

theorem markFold_writeIndex (ms : List Int) :
    ∀ s : StateManager, (ms.foldl markDataAsSynced s).writeIndex =
      s.writeIndex := by
  induction ms with
  | nil => intro s; rfl
  | cons m ms ih =>
    intro s
    show (ms.foldl markDataAsSynced (markDataAsSynced s m)).writeIndex = _
    rw [ih, markDataAsSynced_writeIndex]

theorem markFold_bufferCount (ms : List Int) :
    ∀ s : StateManager, (ms.foldl markDataAsSynced s).bufferCount =
      s.bufferCount := by
  induction ms with
  | nil => intro s; rfl
  | cons m ms ih =>
    intro s
    show (ms.foldl markDataAsSynced (markDataAsSynced s m)).bufferCount = _
    rw [ih, markDataAsSynced_bufferCount]

theorem markFold_slot_fields (ms : List Int) :
    ∀ (s : StateManager) (j : Nat),
      ((ms.foldl markDataAsSynced s).buffer.getD j initSlot).data =
          (s.buffer.getD j initSlot).data ∧
        ((ms.foldl markDataAsSynced s).buffer.getD j initSlot).nodeId =
          (s.buffer.getD j initSlot).nodeId := by
  induction ms with
  | nil => intro s j; constructor <;> rfl
  | cons m ms ih =>
    intro s j
    obtain ⟨h1, h2⟩ := ih (markDataAsSynced s m) j
    obtain ⟨h3, h4⟩ := markDataAsSynced_slot_fields s m j
    exact ⟨h1.trans h3, h2.trans h4⟩

theorem exists_last_block_rep (k j : Nat) (hj : j < BUFFER_SIZE) :
    ∃ m, k ≤ m ∧ m < k + BUFFER_SIZE ∧ m % BUFFER_SIZE = j := by
  unfold BUFFER_SIZE at *
  refine ⟨if k % 100 ≤ j then k - k % 100 + j else k - k % 100 + 100 + j,
    ?_, ?_, ?_⟩ <;> (split <;> omega)

end StateManager

/-- C1: after `capacity + k` insertions (k > 0) into the fresh Offline
Buffer, the count of valid entries is exactly the capacity (100); every
entry any subsequent `getNextBufferedData` scan can return — even after
arbitrary interleaved `markDataAsSynced` calls — is one of the last 100
inserted entries, so the oldest `k` are no longer retrievable; and every
insertion stores its entry at the write cursor unconditionally. -/
theorem C1_overwrite_policy (k : Nat) (l : List (SensorData × String))
    (hlen : l.length = StateManager.BUFFER_SIZE + k) (hk : 0 < k) :
    ((StateManager.addAll StateManager.initState l).bufferCount =
        StateManager.BUFFER_SIZE) ∧
    (∀ m, k ≤ m → m < StateManager.BUFFER_SIZE + k →
      (StateManager.addAll StateManager.initState l).buffer.getD
          (m % StateManager.BUFFER_SIZE) initSlot =
        { data := (l.getD m dfltPair).1, nodeId := (l.getD m dfltPair).2,
          synced := false }) ∧
    (∀ (ms : List Int) (dd : SensorData) (nn : String) (idx : Nat),
      StateManager.getNextBufferedData
          (ms.foldl StateManager.markDataAsSynced
            (StateManager.addAll StateManager.initState l)) =
          some (dd, nn, idx) →
      ∃ m, k ≤ m ∧ m < StateManager.BUFFER_SIZE + k ∧
        (l.getD m dfltPair).1 = dd ∧ (l.getD m dfltPair).2 = nn) ∧
    (∀ (s : StateManager) (d : SensorData) (n : String),
      s.writeIndex < s.buffer.length →
      (StateManager.addSensorData s d n).buffer.getD s.writeIndex initSlot =
        { data := d, nodeId := n, synced := false }) := by
  have hcnt : (StateManager.addAll StateManager.initState l).bufferCount =
      StateManager.BUFFER_SIZE := by
    rw [StateManager.addAll_bufferCount, hlen]
    unfold StateManager.BUFFER_SIZE
    omega
  refine ⟨hcnt, ?_, ?_, ?_⟩
  · intro m hkm hmk
    exact StateManager.addAll_slots l m (by omega) (by omega)
  · intro ms dd nn idx h
    have hcnt' : (ms.foldl StateManager.markDataAsSynced
        (StateManager.addAll StateManager.initState l)).bufferCount =
        StateManager.BUFFER_SIZE := by
      rw [StateManager.markFold_bufferCount, hcnt]
    unfold StateManager.getNextBufferedData at h
    rw [if_neg (by rw [hcnt']; unfold StateManager.BUFFER_SIZE; omega)] at h
    obtain ⟨r, _, _, hidx, hsync, hdata, hnode, _⟩ :=
      (StateManager.scanLoop_spec _ _ _ _ 0 (Nat.le_refl _)).2 dd nn idx h
    have hidxlt : idx < StateManager.BUFFER_SIZE := by
      rw [hidx]
      exact Nat.mod_lt _ (by unfold StateManager.BUFFER_SIZE; omega)
    obtain ⟨m, hm1, hm2, hm3⟩ := StateManager.exists_last_block_rep k idx hidxlt
    obtain ⟨hfd, hfn⟩ := StateManager.markFold_slot_fields ms
      (StateManager.addAll StateManager.initState l) idx
    have hslot := StateManager.addAll_slots l m (by omega) (by omega)
    rw [hm3] at hslot
    refine ⟨m, hm1, by omega, ?_, ?_⟩
    · rw [← hdata, hfd, hslot]
    · rw [← hnode, hfn, hslot]
  · intro s d n hw
    rw [StateManager.addSensorData_buffer, List.getD_eq_getElem?_getD,
      List.getElem?_set_self hw]
    rfl

/-- Witness for C1: 101 insertions (capacity + 1) into the fresh buffer. -/
theorem C1_overwrite_policy_witness :
    ((StateManager.addAll StateManager.initState C1WitnessList).bufferCount =
        StateManager.BUFFER_SIZE) ∧
    (∀ m, 1 ≤ m → m < StateManager.BUFFER_SIZE + 1 →
      (StateManager.addAll StateManager.initState C1WitnessList).buffer.getD
          (m % StateManager.BUFFER_SIZE) initSlot =
        { data := (C1WitnessList.getD m dfltPair).1,
          nodeId := (C1WitnessList.getD m dfltPair).2, synced := false }) ∧
    (∀ (ms : List Int) (dd : SensorData) (nn : String) (idx : Nat),
      StateManager.getNextBufferedData
          (ms.foldl StateManager.markDataAsSynced
            (StateManager.addAll StateManager.initState C1WitnessList)) =
          some (dd, nn, idx) →
      ∃ m, 1 ≤ m ∧ m < StateManager.BUFFER_SIZE + 1 ∧
        (C1WitnessList.getD m dfltPair).1 = dd ∧
        (C1WitnessList.getD m dfltPair).2 = nn) ∧
    (∀ (s : StateManager) (d : SensorData) (n : String),
      s.writeIndex < s.buffer.length →
      (StateManager.addSensorData s d n).buffer.getD s.writeIndex initSlot =
        { data := d, nodeId := n, synced := false }) :=
  C1_overwrite_policy 1 C1WitnessList
    (by simp [C1WitnessList, StateManager.BUFFER_SIZE]) (by decide)

namespace StateManager

theorem set_append_cons (A : List BufferedData) (i : Nat) (hi : i = A.length)
    (b0 v : BufferedData) (R : List BufferedData) :
    (A ++ b0 :: R).set i v = A ++ v :: R := by
  subst hi
  induction A with
  | nil => rfl
  | cons h t ih => simp [ih]

theorem getD_map_append (a : List (SensorData × String))
    (f : SensorData × String → BufferedData) (rest : List BufferedData)
    (r : Nat) (hr : r < a.length) :
    (a.map f ++ rest).getD r initSlot = f (a.getD r dfltPair) := by
  rw [List.getD_append _ _ initSlot r (by simpa using hr)]
  rw [List.getD_eq_getElem?_getD, List.getElem?_map, List.getElem?_eq_getElem hr]
  simp [List.getD_eq_getElem?_getD, List.getElem?_eq_getElem hr]

theorem addAll_buffer_prefix (l : List (SensorData × String))
    (hlen : l.length ≤ BUFFER_SIZE) :
    (addAll initState l).buffer =
      l.map unsyncedEntry ++ List.replicate (BUFFER_SIZE - l.length) initSlot := by
  induction l using List.reverseRecOn with
  | nil => simp [initState]
  | append_singleton xs x ih =>
    simp only [List.length_append, List.length_singleton] at hlen
    have hxs : xs.length ≤ BUFFER_SIZE := by omega
    have hlt : xs.length < BUFFER_SIZE := by omega
    rw [addAll_concat, addSensorData_buffer, addAll_writeIndex, ih hxs]
    rw [Nat.mod_eq_of_lt hlt]
    have hrep : BUFFER_SIZE - xs.length = (BUFFER_SIZE - (xs.length + 1)) + 1 := by
      omega
    rw [hrep, List.replicate_succ]
    have hvx : ({ data := x.1, nodeId := x.2, synced := false } : BufferedData) =
        unsyncedEntry x := rfl
    rw [hvx]
    rw [set_append_cons (xs.map unsyncedEntry) xs.length (by simp) initSlot
      (unsyncedEntry x)]
    simp [unsyncedEntry]

theorem oldestIdx_eq_zero (s : StateManager) (n : Nat)
    (hw : s.writeIndex = n % BUFFER_SIZE) (hc : s.bufferCount = n) :
    oldestIdx s = 0 := by
  unfold oldestIdx BUFFER_SIZE at *
  rw [hw, hc]
  omega

theorem scanLoop_skip (buf : List BufferedData) (cnt p : Nat)
    (hcnt : cnt ≤ BUFFER_SIZE) (hp : p ≤ cnt)
    (hsync : ∀ r, r < p → (buf.getD r initSlot).synced = true) :
    ∀ fuel i, p - i ≤ fuel → i ≤ p →
      scanLoop buf 0 cnt i = scanLoop buf 0 cnt p := by
  intro fuel
  induction fuel with
  | zero =>
    intro i hf hip
    have : i = p := by omega
    rw [this]
  | succ fuel ih =>
    intro i hf hip
    by_cases hipe : i = p
    · rw [hipe]
    · have hilt : i < p := by omega
      have hicnt : i < cnt := by omega
      rw [scanLoop, if_pos hicnt]
      have hidx : (0 + i) % BUFFER_SIZE = i := by
        rw [Nat.zero_add]
        exact Nat.mod_eq_of_lt (by unfold BUFFER_SIZE at *; omega)
      simp only [hidx, hsync i hilt, if_true]
      exact ih (i + 1) (by omega) (by omega)

theorem scanLoop_finds (buf : List BufferedData) (cnt p : Nat)
    (hcnt : cnt ≤ BUFFER_SIZE) (hp : p < cnt)
    (hsync : ∀ r, r < p → (buf.getD r initSlot).synced = true)
    (hun : (buf.getD p initSlot).synced = false) :
    scanLoop buf 0 cnt 0 = some ((buf.getD p initSlot).data,
      (buf.getD p initSlot).nodeId, p) := by
  rw [scanLoop_skip buf cnt p hcnt (by omega) hsync p 0 (by omega) (by omega)]
  rw [scanLoop, if_pos hp]
  have hidx : (0 + p) % BUFFER_SIZE = p := by
    rw [Nat.zero_add]
    exact Nat.mod_eq_of_lt (by unfold BUFFER_SIZE at *; omega)
  simp only [hidx, hun, Bool.false_eq_true, if_false]

theorem drain_spec (C : List BufferedData) :
    ∀ (b a : List (SensorData × String)) (s : StateManager),
      a.length + b.length ≤ BUFFER_SIZE →
      s.bufferCount = a.length + b.length →
      s.writeIndex = (a.length + b.length) % BUFFER_SIZE →
      s.buffer = a.map syncedEntry ++ b.map unsyncedEntry ++ C →
      drain b.length s = b := by
  intro b
  induction b with
  | nil => intro a s _ _ _ _; rfl
  | cons x b' ih =>
    intro a s hlen hc hw hbuf
    simp only [List.length_cons] at hlen hc hw
    have halen : a.length < BUFFER_SIZE := by omega
    have hcnt0 : ¬ s.bufferCount = 0 := by omega
    have holdest : oldestIdx s = 0 :=
      oldestIdx_eq_zero s (a.length + (b'.length + 1)) hw hc
    have hgetp : s.buffer.getD a.length initSlot = unsyncedEntry x := by
      rw [hbuf, List.append_assoc]
      rw [show a.length = (a.map syncedEntry).length from by simp]
      rw [List.getD_append_right _ _ initSlot _ (Nat.le_refl _), Nat.sub_self]
      rfl
    have hsyncr : ∀ r, r < a.length → (s.buffer.getD r initSlot).synced = true := by
      intro r hr
      rw [hbuf, List.append_assoc, getD_map_append a syncedEntry _ r hr]
      rfl
    have hnext : getNextBufferedData s = some (x.1, x.2, a.length) := by
      unfold getNextBufferedData
      rw [if_neg hcnt0, holdest]
      rw [scanLoop_finds s.buffer s.bufferCount a.length (by omega)
        (by omega) hsyncr (by rw [hgetp]; rfl)]
      rw [hgetp]
      rfl
    show drain (b'.length + 1) s = x :: b'
    rw [drain, hnext]
    show (x.1, x.2) :: drain b'.length (markDataAsSynced s (a.length : Int)) =
      x :: b'
    have hdr : drain b'.length (markDataAsSynced s (a.length : Int)) = b' := by
      apply ih (a ++ [x]) (markDataAsSynced s (a.length : Int))
      · simp only [List.length_append, List.length_singleton]
        omega
      · rw [markDataAsSynced_bufferCount, hc]
        simp only [List.length_append, List.length_singleton]
        omega
      · rw [markDataAsSynced_writeIndex, hw]
        simp only [List.length_append, List.length_singleton]
        congr 1
        omega
      · unfold markDataAsSynced
        rw [if_pos ⟨by omega, by unfold BUFFER_SIZE at *; omega⟩]
        have htn : ((a.length : Int)).toNat = a.length := by omega
        simp only [htn]
        show s.buffer.set a.length
            ({ s.buffer.getD a.length initSlot with synced := true }) = _
        calc s.buffer.set a.length
              ({ s.buffer.getD a.length initSlot with synced := true })
            = s.buffer.set a.length (syncedEntry x) := by
              rw [hgetp]
              rfl
          _ = (a.map syncedEntry ++
                (unsyncedEntry x :: (b'.map unsyncedEntry ++ C))).set a.length
                (syncedEntry x) := by
              rw [hbuf]
              simp [List.append_assoc]
          _ = a.map syncedEntry ++
                (syncedEntry x :: (b'.map unsyncedEntry ++ C)) :=
              set_append_cons _ _ (by simp) _ _ _
          _ = (a ++ [x]).map syncedEntry ++ b'.map unsyncedEntry ++ C := by
              simp
    rw [hdr]

end StateManager

/-- C2: N <= capacity insertions followed by repeated
`getNextBufferedData`/`markDataAsSynced` pairs acknowledge the entries in
exactly insertion order; and in any well-formed state,
`getNextBufferedData` returns precisely the first unsynced entry of the
oldest-to-newest scan of the valid region, or `none` when every valid
entry is synced (in particular when the buffer is empty). -/
theorem C2_fifo_acknowledgement (l : List (SensorData × String))
    (hlen : l.length ≤ StateManager.BUFFER_SIZE) :
    StateManager.drain l.length
        (StateManager.addAll StateManager.initState l) = l ∧
      (∀ s : StateManager, StateManager.WF s →
        ((StateManager.getNextBufferedData s = none ↔
           ∀ i, i < s.bufferCount →
             (StateManager.validSlot s i).synced = true) ∧
         (∀ d nId idx,
           StateManager.getNextBufferedData s = some (d, nId, idx) →
           ∃ i, i < s.bufferCount ∧
             idx = (StateManager.oldestIdx s + i) % StateManager.BUFFER_SIZE ∧
             (StateManager.validSlot s i).synced = false ∧
             (StateManager.validSlot s i).data = d ∧
             (StateManager.validSlot s i).nodeId = nId ∧
             ∀ i', i' < i → (StateManager.validSlot s i').synced = true))) := by
  constructor
  · apply StateManager.drain_spec
      (List.replicate (StateManager.BUFFER_SIZE - l.length) initSlot) l [] _
    · simpa using hlen
    · rw [StateManager.addAll_bufferCount]
      simp only [List.length_nil, Nat.zero_add]
      unfold StateManager.BUFFER_SIZE at *
      omega
    · rw [StateManager.addAll_writeIndex]
      simp
    · rw [StateManager.addAll_buffer_prefix l hlen]
      simp
  · intro s _
    unfold StateManager.getNextBufferedData
    by_cases hc : s.bufferCount = 0
    · rw [if_pos hc]
      constructor
      · constructor
        · intro _ i hi
          rw [hc] at hi
          exact absurd hi (by omega)
        · intro _
          rfl
      · intro d nId idx h
        exact absurd h (by simp)
    · rw [if_neg hc]
      obtain ⟨h1, h2⟩ := StateManager.scanLoop_spec s.buffer
        (StateManager.oldestIdx s) s.bufferCount s.bufferCount 0 (Nat.le_refl _)
      constructor
      · rw [h1]
        unfold StateManager.validSlot
        constructor
        · intro h i hi
          exact h i (Nat.zero_le _) hi
        · intro h r _ hr
          exact h r hr
      · intro d nId idx h
        obtain ⟨r, _, hr2, hr3, hr4, hr5, hr6, hr7⟩ := h2 d nId idx h
        refine ⟨r, hr2, hr3, ?_, ?_, ?_, ?_⟩
        · unfold StateManager.validSlot
          rw [← hr3]
          exact hr4
        · unfold StateManager.validSlot
          rw [← hr3]
          exact hr5
        · unfold StateManager.validSlot
          rw [← hr3]
          exact hr6
        · intro i' hi'
          unfold StateManager.validSlot
          exact hr7 i' (Nat.zero_le _) hi'

/-- Witness for C2 at a concrete 2-entry insertion sequence. -/
theorem C2_fifo_acknowledgement_witness :
    StateManager.drain
        [(initSensorData, "node-B"), (initSensorData, "node-C")].length
        (StateManager.addAll StateManager.initState
          [(initSensorData, "node-B"), (initSensorData, "node-C")]) =
      [(initSensorData, "node-B"), (initSensorData, "node-C")] ∧
      (∀ s : StateManager, StateManager.WF s →
        ((StateManager.getNextBufferedData s = none ↔
           ∀ i, i < s.bufferCount →
             (StateManager.validSlot s i).synced = true) ∧
         (∀ d nId idx,
           StateManager.getNextBufferedData s = some (d, nId, idx) →
           ∃ i, i < s.bufferCount ∧
             idx = (StateManager.oldestIdx s + i) % StateManager.BUFFER_SIZE ∧
             (StateManager.validSlot s i).synced = false ∧
             (StateManager.validSlot s i).data = d ∧
             (StateManager.validSlot s i).nodeId = nId ∧
             ∀ i', i' < i → (StateManager.validSlot s i').synced = true))) :=
  C2_fifo_acknowledgement
    [(initSensorData, "node-B"), (initSensorData, "node-C")] (by decide)

namespace StateManager

theorem getActiveNodes_eq_fold (s : StateManager) (now w : Nat) :
    getActiveNodes s now w =
      (validEntries s).foldl (activeStep (ulSub now w)) [] := by
  unfold getActiveNodes validEntries validSlot
  split
  · rename_i h
    rw [h]
    simp
  · rw [List.foldl_map]

theorem mem_activeStep (c : Nat) (acc : List String) (e : BufferedData)
    (x : String) (hx : x ∈ acc) : x ∈ activeStep c acc e := by
  unfold activeStep
  split
  · exact hx
  · split
    · split
      · exact hx
      · split
        · exact List.mem_append_left _ hx
        · exact hx
    · exact hx

theorem mem_foldl_activeStep (c : Nat) (l : List BufferedData) :
    ∀ (acc : List String) (x : String), x ∈ acc →
      x ∈ l.foldl (activeStep c) acc := by
  induction l with
  | nil => intro acc x hx; exact hx
  | cons e l ih =>
    intro acc x hx
    exact ih _ x (mem_activeStep c acc e x hx)

theorem mem_foldl_activeStep_src (c : Nat) (l : List BufferedData) :
    ∀ (acc : List String) (x : String),
      x ∈ l.foldl (activeStep c) acc →
      x ∈ acc ∨ ∃ e ∈ l, e.nodeId = x ∧ isGatewayId e.nodeId = false ∧
        c ≤ e.data.timestamp := by
  induction l with
  | nil => intro acc x hx; exact Or.inl hx
  | cons e l ih =>
    intro acc x hx
    rcases ih _ x hx with h | ⟨e', he', h1, h2, h3⟩
    · unfold activeStep at h
      split at h
      · exact Or.inl h
      · rename_i hgw
        split at h
        · rename_i hts
          split at h
          · exact Or.inl h
          · split at h
            · rcases List.mem_append.mp h with h' | h'
              · exact Or.inl h'
              · have hx' : x = e.nodeId := by simpa using h'
                exact Or.inr ⟨e, List.mem_cons_self e l, hx'.symm,
                  by simpa using hgw, hts⟩
            · exact Or.inl h
        · exact Or.inl h
    · exact Or.inr ⟨e', List.mem_cons_of_mem e he', h1, h2, h3⟩

theorem mem_foldl_activeStep_of_qual (c : Nat) (A : List String)
    (hA : A.Nodup) (hAlen : A.length ≤ 20) :
    ∀ (l : List BufferedData) (acc : List String) (x : String),
      x ∈ A → acc ⊆ A → acc.Nodup →
      (∀ e ∈ l, isGatewayId e.nodeId = false → c ≤ e.data.timestamp →
        e.nodeId ∈ A) →
      (∃ e ∈ l, e.nodeId = x ∧ isGatewayId e.nodeId = false ∧
        c ≤ e.data.timestamp) →
      x ∈ l.foldl (activeStep c) acc := by
  intro l
  induction l with
  | nil =>
    intro acc x _ _ _ _ hw
    simp at hw
  | cons e l ih =>
    intro acc x hxA hsub hnd hql hw
    by_cases hgw : isGatewayId e.nodeId
    · have hstep : activeStep c acc e = acc := by
        unfold activeStep
        rw [if_pos hgw]
      rw [List.foldl_cons, hstep]
      rcases hw with ⟨e', he', h1, h2, h3⟩
      rcases List.mem_cons.mp he' with rfl | hmem'
      · rw [hgw] at h2
        exact absurd h2 (by simp)
      · exact ih acc x hxA hsub hnd
          (fun e'' h'' => hql e'' (List.mem_cons_of_mem _ h''))
          ⟨e', hmem', h1, h2, h3⟩
    · by_cases hts : c ≤ e.data.timestamp
      · have hqid : e.nodeId ∈ A :=
          hql e (List.mem_cons_self e l) (by simpa using hgw) hts
      -- head entry qualifies
        by_cases hxacc : x ∈ acc
        · rw [List.foldl_cons]
          exact mem_foldl_activeStep c l _ x (mem_activeStep c acc e x hxacc)
        · by_cases hxe : e.nodeId = x
          · have hposA : 0 < A.length := List.length_pos_of_mem hxA
            have hssub : acc ⊆ A.erase x := by
              intro a ha
              refine (List.mem_erase_of_ne ?_).mpr (hsub ha)
              intro hax
              rw [hax] at ha
              exact hxacc ha
            have hle := (List.Nodup.subperm hnd hssub).length_le
            rw [List.length_erase_of_mem hxA] at hle
            have hlenacc : acc.length < 20 := by omega
            have hstep : activeStep c acc e = acc ++ [e.nodeId] := by
              unfold activeStep
              rw [if_neg hgw, if_pos hts,
                if_neg (fun h => hxacc (hxe ▸ h)), if_pos hlenacc]
            rw [List.foldl_cons, hstep]
            apply mem_foldl_activeStep
            rw [← hxe]
            exact List.mem_append_right _ (by simp)
          · rcases hw with ⟨e', he', h1, h2, h3⟩
            rcases List.mem_cons.mp he' with rfl | hmem'
            · exact absurd h1 hxe
            · have hsub' : activeStep c acc e ⊆ A := by
                unfold activeStep
                rw [if_neg hgw, if_pos hts]
                split
                · exact hsub
                · split
                  · intro y hy
                    rcases List.mem_append.mp hy with h' | h'
                    · exact hsub h'
                    · have : y = e.nodeId := by simpa using h'
                      rw [this]
                      exact hqid
                  · exact hsub
              have hnd' : (activeStep c acc e).Nodup := by
                unfold activeStep
                rw [if_neg hgw, if_pos hts]
                split
                · exact hnd
                · split
                  · rename_i hmemacc _
                    simp only [List.nodup_append, List.nodup_cons,
                      List.nodup_nil, and_true, List.mem_singleton]
                    exact ⟨hnd, by simpa using fun h => hmemacc h⟩
                  · exact hnd
              rw [List.foldl_cons]
              exact ih (activeStep c acc e) x hxA hsub' hnd'
                (fun e'' h'' => hql e'' (List.mem_cons_of_mem _ h''))
                ⟨e', hmem', h1, h2, h3⟩
      · have hstep : activeStep c acc e = acc := by
          unfold activeStep
          rw [if_neg hgw, if_neg hts]
        rw [List.foldl_cons, hstep]
        rcases hw with ⟨e', he', h1, h2, h3⟩
        rcases List.mem_cons.mp he' with rfl | hmem'
        · exact absurd h3 hts
        · exact ih acc x hxA hsub hnd
            (fun e'' h'' => hql e'' (List.mem_cons_of_mem _ h''))
            ⟨e', hmem', h1, h2, h3⟩

end StateManager

/-- C5 counterexample: a single node whose only (hence most recent)
reading has timestamp 700 is counted by `getActiveNodeCount` at
`now = 1000`, `w = 300`, although `now - T = 300` is not strictly less
than `w` — the code's cutoff comparison `timestamp >= now - w` is
inclusive, refuting the claimed strict bound. -/
theorem C5_active_window_counterexample :
    StateManager.getActiveNodeCount
        (StateManager.addSensorData StateManager.initState
          { initSensorData with timestamp := 700 } "node-A") 1000 300 = 1 ∧
      ¬((1000 - 700 : Nat) < 300) := by
  constructor
  · decide
  · decide

/-- C5 (amended): for a non-gateway node whose most recent valid reading
has timestamp `T`, under no unsigned wraparound (`w ≤ now < 2^32`) and
with at most 20 distinct non-gateway identifiers among valid entries,
`getActiveNodeCount`'s scan includes the node iff `now - T ≤ w`
(boundary inclusive); the returned count is the length of that scan's
deduplicated list. -/
theorem C5_active_window_inclusive (s : StateManager) (now w T : Nat)
    (nodeId : String)
    (hgw : StateManager.isGatewayId nodeId = false)
    (hwle : w ≤ now) (hnow : now < UL_MOD)
    (hmem : ∃ e ∈ StateManager.validEntries s, e.nodeId = nodeId ∧
        e.data.timestamp = T)
    (hmax : ∀ e ∈ StateManager.validEntries s, e.nodeId = nodeId →
        e.data.timestamp ≤ T)
    (hcap : (StateManager.activeCandidateIds s).length ≤ 20) :
    (nodeId ∈ StateManager.getActiveNodes s now w ↔ now - T ≤ w) ∧
      StateManager.getActiveNodeCount s now w =
        (StateManager.getActiveNodes s now w).length := by
  have hcut : ulSub now w = now - w := ulSub_eq_sub now w hwle (by omega) hnow
  constructor
  · rw [StateManager.getActiveNodes_eq_fold]
    constructor
    · intro hmemf
      rcases StateManager.mem_foldl_activeStep_src _ _ _ _ hmemf with
        h | ⟨e, he, h1, _, h3⟩
      · simp at h
      · have hTe := hmax e he h1
        rw [hcut] at h3
        omega
    · intro hT
      rcases hmem with ⟨e, he, h1, h2⟩
      refine StateManager.mem_foldl_activeStep_of_qual (ulSub now w)
        (StateManager.activeCandidateIds s) (List.nodup_dedup _) hcap
        (StateManager.validEntries s) [] nodeId ?_ (List.nil_subset _)
        List.nodup_nil ?_ ?_
      · unfold StateManager.activeCandidateIds
        rw [List.mem_dedup, List.mem_filter]
        exact ⟨List.mem_map.mpr ⟨e, he, h1⟩, by simp [hgw]⟩
      · intro e' he' hg' _
        unfold StateManager.activeCandidateIds
        rw [List.mem_dedup, List.mem_filter]
        exact ⟨List.mem_map.mpr ⟨e', he', rfl⟩, by simp [hg']⟩
      · refine ⟨e, he, h1, ?_, ?_⟩
        · rw [h1]
          exact hgw
        · rw [hcut, h2]
          omega
  · by_cases h0 : s.bufferCount = 0
    · unfold StateManager.getActiveNodeCount StateManager.getActiveNodes
      rw [if_pos h0, if_pos h0]
      rfl
    · unfold StateManager.getActiveNodeCount
      rw [if_neg h0]

/-- Witness for C5 (amended) at the single-entry buffer of the
counterexample state, where the boundary case is exercised. -/
theorem C5_active_window_inclusive_witness :
    (("node-A" : String) ∈ StateManager.getActiveNodes
        (StateManager.addSensorData StateManager.initState
          { initSensorData with timestamp := 700 } "node-A") 1000 300 ↔
        (1000 - 700 : Nat) ≤ 300) ∧
      StateManager.getActiveNodeCount
          (StateManager.addSensorData StateManager.initState
            { initSensorData with timestamp := 700 } "node-A") 1000 300 =
        (StateManager.getActiveNodes
            (StateManager.addSensorData StateManager.initState
              { initSensorData with timestamp := 700 } "node-A") 1000
            300).length :=
  C5_active_window_inclusive
    (StateManager.addSensorData StateManager.initState
      { initSensorData with timestamp := 700 } "node-A") 1000 300 700
    "node-A" (by decide) (by decide) (by decide) (by decide) (by decide)
    (by decide)

namespace NetworkManager

open NetworkState

theorem ulSub_eq_sub_of_lt (a b : Nat) (hba : b ≤ a) (hlt : a - b < UL_MOD) :
    ulSub a b = a - b := by
  unfold ulSub UL_MOD at *
  omega

theorem update_ap_absorb (inputs : List UpdateInput) :
    ∀ s : GatewayNetworkManager, s.currentState = AP_MODE →
      s.internetAvailable = false →
      (∀ inp ∈ inputs, inp.wifiConnected = false) →
      (inputs.foldl update s).currentState = AP_MODE ∧
        (inputs.foldl update s).internetAvailable = false := by
  induction inputs with
  | nil =>
    intro s hst hint _
    exact ⟨hst, hint⟩
  | cons i0 rest ih =>
    intro s hst hint hconn
    have hc0 : i0.wifiConnected = false := hconn i0 (List.mem_cons_self _ _)
    have hstep : (update s i0).currentState = AP_MODE ∧
        (update s i0).internetAvailable = false := by
      unfold update
      rw [hst]
      simp only [hc0, Bool.false_eq_true, if_false]
      constructor
      · simp [apply_ite (GatewayNetworkManager.currentState), hst]
      · simp [apply_ite (GatewayNetworkManager.internetAvailable), hint]
    rw [List.foldl_cons]
    exact ih (update s i0) hstep.1 hstep.2
      (fun inp h => hconn inp (List.mem_cons_of_mem _ h))

theorem update_sta_not_connected (s : GatewayNetworkManager)
    (inp : UpdateInput) (h1 : s.currentState = STA_CONNECTING)
    (hc : inp.wifiConnected = false) :
    (STA_CONNECT_TIMEOUT < ulSub inp.currentTime s.staConnectStartTime →
      (update s inp).currentState = AP_MODE ∧
        (update s inp).internetAvailable = false) ∧
    (¬ STA_CONNECT_TIMEOUT < ulSub inp.currentTime s.staConnectStartTime →
      update s inp = s) := by
  unfold update
  rw [h1]
  simp only [hc, Bool.false_eq_true, if_false]
  constructor
  · intro ht
    rw [if_pos ht]
    constructor
    · simp
    · simp
  · intro ht
    rw [if_neg ht]

theorem run_sta_timeout (t0 : Nat) (inputs : List UpdateInput) :
    ∀ s : GatewayNetworkManager,
      s.currentState = STA_CONNECTING → s.staConnectStartTime = t0 →
      (∀ inp ∈ inputs, inp.wifiConnected = false) →
      (∀ inp ∈ inputs, t0 ≤ inp.currentTime ∧
        inp.currentTime < t0 + UL_MOD) →
      (((inputs.foldl update s).currentState = AP_MODE →
          (∃ inp ∈ inputs, t0 + STA_CONNECT_TIMEOUT < inp.currentTime) ∧
            (inputs.foldl update s).internetAvailable = false) ∧
       ((∃ inp ∈ inputs, t0 + STA_CONNECT_TIMEOUT < inp.currentTime) →
          (inputs.foldl update s).currentState = AP_MODE)) := by
  induction inputs with
  | nil =>
    intro s h1 _ _ _
    constructor
    · intro hap
      simp only [List.foldl_nil] at hap
      rw [h1] at hap
      exact absurd hap (by simp)
    · rintro ⟨inp, hmem, _⟩
      simp at hmem
  | cons i0 rest ih =>
    intro s h1 h2 hconn htime
    have hc0 := hconn i0 (List.mem_cons_self _ _)
    have ht0 := htime i0 (List.mem_cons_self _ _)
    obtain ⟨hstale, hfresh⟩ := update_sta_not_connected s i0 h1 hc0
    have hulsub : ulSub i0.currentTime s.staConnectStartTime =
        i0.currentTime - t0 := by
      rw [h2]
      exact ulSub_eq_sub_of_lt _ _ ht0.1 (by omega)
    by_cases hlate : STA_CONNECT_TIMEOUT < i0.currentTime - t0
    · have hstep := hstale (by rw [hulsub]; exact hlate)
      have habs := update_ap_absorb rest (update s i0) hstep.1 hstep.2
        (fun inp h => hconn inp (List.mem_cons_of_mem _ h))
      rw [List.foldl_cons]
      constructor
      · intro _
        exact ⟨⟨i0, List.mem_cons_self _ _, by omega⟩, habs.2⟩
      · intro _
        exact habs.1
    · have hstep : update s i0 = s := hfresh (by rw [hulsub]; omega)
      rw [List.foldl_cons, hstep]
      obtain ⟨ih1, ih2⟩ := ih s h1 h2
        (fun inp h => hconn inp (List.mem_cons_of_mem _ h))
        (fun inp h => htime inp (List.mem_cons_of_mem _ h))
      constructor
      · intro hap
        obtain ⟨⟨inp, hmem, hlt⟩, hint⟩ := ih1 hap
        exact ⟨⟨inp, List.mem_cons_of_mem _ hmem, hlt⟩, hint⟩
      · rintro ⟨inp, hmem, hlt⟩
        rcases List.mem_cons.mp hmem with rfl | hmem'
        · exact absurd (by omega : STA_CONNECT_TIMEOUT <
            inp.currentTime - t0) hlate
        · exact ih2 ⟨inp, hmem', hlt⟩

end NetworkManager

/-- C6: in a run that enters `StaConnecting` and never sees link-layer
association success, the machine reaches `ApMode` exactly when some tick
observes elapsed time strictly beyond the 10,000 ms timeout since the
attempt start — never before — and on that transition the cached
internet-reachable flag is false. -/
theorem C6_sta_timeout_to_ap (s0 : NetworkManager.GatewayNetworkManager)
    (inputs : List NetworkManager.UpdateInput)
    (h1 : s0.currentState = NetworkManager.NetworkState.STA_CONNECTING)
    (hconn : ∀ inp ∈ inputs, inp.wifiConnected = false)
    (htime : ∀ inp ∈ inputs, s0.staConnectStartTime ≤ inp.currentTime ∧
        inp.currentTime < s0.staConnectStartTime + UL_MOD) :
    (((inputs.foldl NetworkManager.update s0).currentState =
          NetworkManager.NetworkState.AP_MODE →
        (∃ inp ∈ inputs, s0.staConnectStartTime +
            NetworkManager.STA_CONNECT_TIMEOUT < inp.currentTime) ∧
          (inputs.foldl NetworkManager.update s0).internetAvailable = false) ∧
      ((∃ inp ∈ inputs, s0.staConnectStartTime +
          NetworkManager.STA_CONNECT_TIMEOUT < inp.currentTime) →
        (inputs.foldl NetworkManager.update s0).currentState =
          NetworkManager.NetworkState.AP_MODE)) :=
  NetworkManager.run_sta_timeout s0.staConnectStartTime inputs s0 h1 rfl
    hconn htime

/-- Witness for C6: from a fresh manager put in `StaConnecting` at time 0,
a single disconnected tick at 10,001 ms transitions to `ApMode`. -/
theorem C6_sta_timeout_to_ap_witness :
    (((C6WitnessInputs.foldl NetworkManager.update
          C6WitnessState).currentState =
          NetworkManager.NetworkState.AP_MODE →
        (∃ inp ∈ C6WitnessInputs, C6WitnessState.staConnectStartTime +
            NetworkManager.STA_CONNECT_TIMEOUT < inp.currentTime) ∧
          (C6WitnessInputs.foldl NetworkManager.update
            C6WitnessState).internetAvailable = false) ∧
      ((∃ inp ∈ C6WitnessInputs, C6WitnessState.staConnectStartTime +
          NetworkManager.STA_CONNECT_TIMEOUT < inp.currentTime) →
        (C6WitnessInputs.foldl NetworkManager.update
          C6WitnessState).currentState =
          NetworkManager.NetworkState.AP_MODE)) :=
  C6_sta_timeout_to_ap C6WitnessState C6WitnessInputs rfl (by decide)
    (by decide)
